import Mathlib

/-
Shallow embedding of the Video-player repository.

The repository has two components:
* a proxy gateway (src/index.js): an Express route GET /api/proxy-get-stream
  that validates a title query parameter, forwards it URL-encoded to a fixed
  upstream endpoint, and relays the upstream JSON (or a uniform error
  envelope) back to the caller;
* a player controller (src/unnamed/part_000): a React Native component
  holding the playback state and its event handlers.  part_000 contains two
  concatenated revisions of the component; the second revision
  (lines 394-830) declares the full state machine (playerState, currentTime,
  duration, isLoading) that the specification describes, and its handlers
  (fetchStream, onProgress, onError, clearAll, ...) are the ones embedded
  here.  The first revision's handlers are a strict subset of the second's.

Asynchronous network calls are embedded by passing the outcome of the single
awaited call as an explicit argument; alerts shown to the user are returned
alongside the new state.  JavaScript numbers that only ever hold media times
are embedded as rationals.
-/

/-- Playback states of the media-controls widget (PLAYER_STATES of the
react-native-media-controls library): PLAYING, PAUSED, ENDED. -/
inductive PlayerState where
  | PLAYING
  | PAUSED
  | ENDED
deriving Repr, DecidableEq

/-- The headers object of a stream descriptor.  The field UserAgent embeds the
JSON key with the hyphenated name, which is not a legal Lean identifier. -/
structure StreamHeaders where
  Referer : String
  UserAgent : String
deriving Repr, DecidableEq

/-- A StreamDescriptor as returned by the upstream API: success flag, opaque
video identifier, manifest URL, required headers, and an error message that
is present only on failure. -/
structure StreamDescriptor where
  success : Bool
  video_id : String
  m3u8_url : String
  headers : StreamHeaders
  error : Option String
deriving Repr, DecidableEq

/-- The component state of the player controller: the useState hooks
streamData, loading, error, title, isFullscreen, playerState, currentTime,
duration and isLoading of the second revision of the component. -/
structure AppState where
  streamData : Option StreamDescriptor
  loading : Bool
  error : Option String
  title : String
  isFullscreen : Bool
  playerState : PlayerState
  currentTime : Rat
  duration : Rat
  isLoading : Bool
deriving Repr, DecidableEq

/-- One Alert.alert call surfaced to the user: alert title and message. -/
structure Alert where
  heading : String
  message : String
deriving Repr, DecidableEq

/-- Outcome of the awaited fetch inside fetchStream: either the parsed JSON
response body, or a thrown exception with its message. -/
inductive FetchOutcome where
  | response (data : StreamDescriptor)
  | thrown (msg : String)
deriving Repr, DecidableEq

/-- The data argument of the onProgress callback. -/
structure ProgressData where
  currentTime : Rat
deriving Repr, DecidableEq

/-- The data argument of the onLoad callback. -/
structure LoadData where
  duration : Rat
deriving Repr, DecidableEq

/-- A seek command forwarded to the underlying video widget. -/
structure SeekCommand where
  target : Rat
deriving Repr, DecidableEq

/-- Embeds JavaScript String.prototype.trim: drop whitespace from both ends.
Written over the character list so that it evaluates by kernel reduction. -/
def jsTrim (s : String) : String :=
  String.mk (((s.data.dropWhile Char.isWhitespace).reverse.dropWhile
    Char.isWhitespace).reverse)

/-- fetchStream of the second revision (part_000 lines 394-431).  An empty
trimmed title shows a validation alert and returns without touching state.
Otherwise loading is set, error and streamData are cleared, isLoading is
set, and the awaited response is dispatched: on success the descriptor is
stored and playerState moves to PLAYING; on an unsuccessful response the
response error is stored and alerted; on a thrown exception a network error
is stored and alerted.  The finally block clears loading on every path that
entered the try. -/
def fetchStream (s : AppState) (outcome : FetchOutcome) : AppState × List Alert :=
  if jsTrim s.title = "" then
    (s, [⟨"Error", "Please enter movie/series title"⟩])
  else
    let s1 : AppState :=
      { s with loading := true, error := none, streamData := none, isLoading := true }
    match outcome with
    | FetchOutcome.response data =>
      if data.success then
        ({ s1 with streamData := some data, playerState := PlayerState.PLAYING,
                   loading := false }, [])
      else
        let msg : String :=
          match data.error with
          | some e => if e = "" then "Failed to get stream" else e
          | none => "Failed to get stream"
        ({ s1 with error := data.error, loading := false }, [⟨"Error", msg⟩])
    | FetchOutcome.thrown m =>
      ({ s1 with error := some ("Network error: " ++ m), loading := false },
       [⟨"Network Error", "Cannot connect to API server"⟩])

/-- onSeek forwards the seek to the video widget; no state change. -/
def onSeek (s : AppState) (seek : Rat) : AppState × SeekCommand :=
  (s, ⟨seek⟩)

/-- onPaused stores the player state supplied by the media controls. -/
def onPaused (s : AppState) (newState : PlayerState) : AppState :=
  { s with playerState := newState }

/-- onReplay moves to PLAYING and seeks the widget to zero. -/
def onReplay (s : AppState) : AppState × SeekCommand :=
  ({ s with playerState := PlayerState.PLAYING }, ⟨0⟩)

/-- onProgress (part_000 lines 447-451): the reported currentTime is stored
only when no widget load is in flight and the player has not ENDED. -/
def onProgress (s : AppState) (data : ProgressData) : AppState :=
  if !s.isLoading && s.playerState != PlayerState.ENDED then
    { s with currentTime := data.currentTime }
  else s

/-- onLoad stores the duration and clears the widget loading flag. -/
def onLoad (s : AppState) (data : LoadData) : AppState :=
  { s with duration := data.duration, isLoading := false }

/-- onLoadStart sets the widget loading flag. -/
def onLoadStart (s : AppState) : AppState :=
  { s with isLoading := true }

/-- onEnd moves the player to ENDED. -/
def onEnd (s : AppState) : AppState :=
  { s with playerState := PlayerState.ENDED }

/-- onSeeking stores the seek position as the current time. -/
def onSeeking (s : AppState) (currentTime : Rat) : AppState :=
  { s with currentTime := currentTime }

/-- onBuffer only logs; the state is unchanged. -/
def onBuffer (s : AppState) (isBuffering : Bool) : AppState :=
  s

/-- onError of the second revision (part_000 lines 475-479): alert the user
and clear the widget loading flag; nothing else changes. -/
def onError (s : AppState) (err : String) : AppState × List Alert :=
  ({ s with isLoading := false },
   [⟨"Playback Error", "Failed to play video stream. Check if headers are working."⟩])

/-- clearAll of the second revision (part_000 lines 481-487): reset title,
streamData, error, playerState to PAUSED and currentTime to zero. -/
def clearAll (s : AppState) : AppState :=
  { s with title := "", streamData := none, error := none,
           playerState := PlayerState.PAUSED, currentTime := 0 }

/-- Upper-case hexadecimal digit for a value below sixteen. -/
def hexDigitChar (n : Nat) : Char :=
  if n < 10 then Char.ofNat (48 + n) else Char.ofNat (55 + n)

/-- UTF-8 encoding of one character, as its list of byte values. -/
def utf8Bytes (c : Char) : List Nat :=
  let n := c.toNat
  if n < 128 then [n]
  else if n < 2048 then [192 ||| (n >>> 6), 128 ||| (n &&& 63)]
  else if n < 65536 then
    [224 ||| (n >>> 12), 128 ||| ((n >>> 6) &&& 63), 128 ||| (n &&& 63)]
  else
    [240 ||| (n >>> 18), 128 ||| ((n >>> 12) &&& 63),
     128 ||| ((n >>> 6) &&& 63), 128 ||| (n &&& 63)]

/-- Percent-escape of one byte, with upper-case hexadecimal digits. -/
def percentEncodeByte (b : Nat) : String :=
  String.mk [Char.ofNat 37, hexDigitChar (b / 16), hexDigitChar (b % 16)]

/-- The characters JavaScript encodeURIComponent leaves unescaped:
letters, digits, hyphen, underscore, dot, exclamation mark, tilde,
asterisk, apostrophe and parentheses. -/
def isUnreservedChar (c : Char) : Bool :=
  c.isAlpha || c.isDigit || c = Char.ofNat 45 || c = Char.ofNat 95 ||
  c = Char.ofNat 46 || c = Char.ofNat 33 || c = Char.ofNat 126 ||
  c = Char.ofNat 42 || c = Char.ofNat 39 || c = Char.ofNat 40 || c = Char.ofNat 41

/-- Embeds JavaScript encodeURIComponent: unreserved characters pass through,
every other character is replaced by the percent-escapes of its UTF-8 bytes. -/
def encodeURIComponent (s : String) : String :=
  String.join (s.data.map (fun c =>
    if isUnreservedChar c then String.singleton c
    else String.join ((utf8Bytes c).map percentEncodeByte)))

/-- Outcome of the gateway's outbound fetch plus JSON parse: either a parsed
body of type a, or a thrown exception with its message. -/
inductive UpstreamOutcome (a : Type) where
  | json (data : a)
  | throws (msg : String)
deriving Repr, DecidableEq

/-- What the gateway sends back: either the upstream JSON body relayed
verbatim with success status, or the uniform error envelope with
success false and an error string. -/
inductive GatewayResponse (a : Type) where
  | relay (data : a)
  | failure (error : String)
deriving Repr, DecidableEq

/-- Result of one inbound request on /api/proxy-get-stream: the response
sent to the caller, and the URL of the outbound upstream call when one was
issued (none when the handler returned before calling upstream). -/
structure ProxyResult (a : Type) where
  response : GatewayResponse a
  outboundUrl : Option String
deriving Repr, DecidableEq

/-- The fixed upstream base URL of src/index.js. -/
def upstreamBase : String := "https://u-1-1azw.onrender.com"

/-- The GET /api/proxy-get-stream handler of src/index.js.  A missing or
empty title query parameter (the falsy values a string-valued parameter can
take) answers the validation envelope with no outbound call.  Otherwise the
handler fetches the upstream /api/get-stream path with the title
URL-encoded; a parsed JSON body is relayed verbatim, and a thrown exception
is caught and normalized to the error envelope carrying the exception
message. -/
def proxyGetStream (a : Type) (title : Option String) (outcome : UpstreamOutcome a) :
    ProxyResult a :=
  match title with
  | none => ⟨GatewayResponse.failure "Title parameter required", none⟩
  | some t =>
    if t = "" then ⟨GatewayResponse.failure "Title parameter required", none⟩
    else
      match outcome with
      | UpstreamOutcome.json d =>
        ⟨GatewayResponse.relay d,
         some (upstreamBase ++ "/api/get-stream?title=" ++ encodeURIComponent t)⟩
      | UpstreamOutcome.throws m =>
        ⟨GatewayResponse.failure m,
         some (upstreamBase ++ "/api/get-stream?title=" ++ encodeURIComponent t)⟩

/-- The GET /health handler of src/index.js: a fixed status payload. -/
def healthResponse : String × String := ("OK", "Video Player Web")

/-- Sample state with the title of the specification scenario, used by
concrete witnesses. -/
def sampleState : AppState :=
  { streamData := none, loading := false, error := none,
    title := "wednesday.s01e03", isFullscreen := false,
    playerState := PlayerState.PAUSED, currentTime := 0, duration := 0,
    isLoading := false }

/-- Sample successful stream descriptor of the specification scenario. -/
def sampleDescriptor : StreamDescriptor :=
  { success := true, video_id := "abc", m3u8_url := "https://x/y.m3u8",
    headers := { Referer := "r", UserAgent := "u" }, error := none }

/-- Sample unsuccessful upstream response. -/
def sampleFailureDescriptor : StreamDescriptor :=
  { success := false, video_id := "", m3u8_url := "",
    headers := { Referer := "", UserAgent := "" },
    error := some "Stream not found" }

/-- Claim C1: a fetchStream call whose upstream response is a well-formed
StreamDescriptor with success true leaves the loading flag false and
playerState PLAYING, and stores a descriptor whose m3u8_url, Referer and
User-Agent headers equal the response values exactly. -/
theorem fetchStream_success_playing (s : AppState) (d : StreamDescriptor)
    (hvalid : jsTrim s.title ≠ "") (hsucc : d.success = true)
    (hurl : d.m3u8_url ≠ "") (href : d.headers.Referer ≠ "")
    (hua : d.headers.UserAgent ≠ "") :
    (fetchStream s (FetchOutcome.response d)).1.loading = false ∧
    (fetchStream s (FetchOutcome.response d)).1.playerState = PlayerState.PLAYING ∧
    (fetchStream s (FetchOutcome.response d)).1.streamData = some d ∧
    Option.map StreamDescriptor.m3u8_url
      (fetchStream s (FetchOutcome.response d)).1.streamData = some d.m3u8_url ∧
    Option.map (fun x => x.headers.Referer)
      (fetchStream s (FetchOutcome.response d)).1.streamData = some d.headers.Referer ∧
    Option.map (fun x => x.headers.UserAgent)
      (fetchStream s (FetchOutcome.response d)).1.streamData = some d.headers.UserAgent := by
  simp [fetchStream, hvalid, hsucc]

/-- Claim C1 witness: the specification scenario, title wednesday.s01e03 with
the sample successful descriptor. -/
theorem fetchStream_success_playing_witness :
    jsTrim sampleState.title ≠ "" ∧ sampleDescriptor.success = true ∧
    sampleDescriptor.m3u8_url ≠ "" ∧ sampleDescriptor.headers.Referer ≠ "" ∧
    sampleDescriptor.headers.UserAgent ≠ "" ∧
    ((fetchStream sampleState (FetchOutcome.response sampleDescriptor)).1.loading = false ∧
     (fetchStream sampleState (FetchOutcome.response sampleDescriptor)).1.playerState =
       PlayerState.PLAYING ∧
     (fetchStream sampleState (FetchOutcome.response sampleDescriptor)).1.streamData =
       some sampleDescriptor ∧
     Option.map StreamDescriptor.m3u8_url
       (fetchStream sampleState (FetchOutcome.response sampleDescriptor)).1.streamData =
       some sampleDescriptor.m3u8_url ∧
     Option.map (fun x => x.headers.Referer)
       (fetchStream sampleState (FetchOutcome.response sampleDescriptor)).1.streamData =
       some sampleDescriptor.headers.Referer ∧
     Option.map (fun x => x.headers.UserAgent)
       (fetchStream sampleState (FetchOutcome.response sampleDescriptor)).1.streamData =
       some sampleDescriptor.headers.UserAgent) :=
  ⟨by decide, by decide, by decide, by decide, by decide,
   fetchStream_success_playing sampleState sampleDescriptor
     (by decide) (by decide) (by decide) (by decide) (by decide)⟩

/-- Claim C2: clearAll resets title to empty, streamData to none, error to
none, playerState to PAUSED and currentTime to zero, from every prior
state. -/
theorem clearAll_resets_initial (s : AppState) :
    (clearAll s).title = "" ∧ (clearAll s).streamData = none ∧
    (clearAll s).error = none ∧ (clearAll s).playerState = PlayerState.PAUSED ∧
    (clearAll s).currentTime = 0 :=
  ⟨rfl, rfl, rfl, rfl, rfl⟩

/-- Claim C3: when the outbound upstream call of a validated gateway request
throws, the gateway answers the JSON error envelope carrying the exception
message; the transport error is never propagated. -/
theorem proxy_exception_envelope (a : Type) (t m : String) (h : t ≠ "") :
    (proxyGetStream a (some t) (UpstreamOutcome.throws m)).response =
      GatewayResponse.failure m := by
  simp [proxyGetStream, h]

/-- Claim C3 witness: the specification scenario, a thrown timeout. -/
theorem proxy_exception_envelope_witness :
    ("wednesday.s01e03" : String) ≠ "" ∧
    (proxyGetStream Nat (some "wednesday.s01e03")
       (UpstreamOutcome.throws "timeout")).response =
      GatewayResponse.failure "timeout" :=
  ⟨by decide, proxy_exception_envelope Nat "wednesday.s01e03" "timeout" (by decide)⟩

/-- Claim C4: a gateway request with the title parameter missing or empty is
answered immediately with the validation envelope and issues no outbound
call. -/
theorem proxy_missing_title_envelope (a : Type) (title : Option String)
    (o : UpstreamOutcome a) (h : title = none ∨ title = some "") :
    (proxyGetStream a title o).response =
      GatewayResponse.failure "Title parameter required" ∧
    (proxyGetStream a title o).outboundUrl = none := by
  rcases h with h | h <;> subst h <;> simp [proxyGetStream]

/-- Claim C4 witness: no title parameter at all. -/
theorem proxy_missing_title_envelope_witness :
    ((none : Option String) = none ∨ (none : Option String) = some "") ∧
    ((proxyGetStream Nat none (UpstreamOutcome.json 0)).response =
       GatewayResponse.failure "Title parameter required" ∧
     (proxyGetStream Nat none (UpstreamOutcome.json 0)).outboundUrl = none) :=
  ⟨Or.inl rfl,
   proxy_missing_title_envelope Nat none (UpstreamOutcome.json 0) (Or.inl rfl)⟩

/-- Claim C5: a fetchStream call whose upstream response has success false
leaves the loading flag false, stores no descriptor, and stores exactly the
response error field. -/
theorem fetchStream_failure_stores_error (s : AppState) (d : StreamDescriptor)
    (hvalid : jsTrim s.title ≠ "") (hfail : d.success = false) :
    (fetchStream s (FetchOutcome.response d)).1.loading = false ∧
    (fetchStream s (FetchOutcome.response d)).1.streamData = none ∧
    (fetchStream s (FetchOutcome.response d)).1.error = d.error := by
  simp [fetchStream, hvalid, hfail]

/-- Claim C5 witness: the sample unsuccessful response on the sample state. -/
theorem fetchStream_failure_stores_error_witness :
    jsTrim sampleState.title ≠ "" ∧ sampleFailureDescriptor.success = false ∧
    ((fetchStream sampleState (FetchOutcome.response sampleFailureDescriptor)).1.loading
       = false ∧
     (fetchStream sampleState (FetchOutcome.response sampleFailureDescriptor)).1.streamData
       = none ∧
     (fetchStream sampleState (FetchOutcome.response sampleFailureDescriptor)).1.error
       = sampleFailureDescriptor.error) :=
  ⟨by decide, by decide,
   fetchStream_failure_stores_error sampleState sampleFailureDescriptor
     (by decide) (by decide)⟩

/-- Claim C6: a gateway request with a non-empty title issues the outbound
GET to the fixed upstream base URL's /api/get-stream path with the title
URL-encoded, and when the upstream yields a JSON body that body is relayed
to the caller unchanged. -/
theorem proxy_relays_body_unchanged (a : Type) (t : String) (d : a) (h : t ≠ "") :
    proxyGetStream a (some t) (UpstreamOutcome.json d) =
      ProxyResult.mk (GatewayResponse.relay d)
        (some (upstreamBase ++ "/api/get-stream?title=" ++ encodeURIComponent t)) := by
  simp [proxyGetStream, h]

/-- Claim C6 witness: the scenario title with a concrete body. -/
theorem proxy_relays_body_unchanged_witness :
    ("wednesday.s01e03" : String) ≠ "" ∧
    proxyGetStream Nat (some "wednesday.s01e03") (UpstreamOutcome.json 7) =
      ProxyResult.mk (GatewayResponse.relay 7)
        (some (upstreamBase ++ "/api/get-stream?title=" ++
          encodeURIComponent "wednesday.s01e03")) :=
  ⟨by decide, proxy_relays_body_unchanged Nat "wednesday.s01e03" 7 (by decide)⟩

/-- Claim C7: an onProgress callback leaves currentTime unchanged while a
widget load is in flight or after ENDED, and stores the reported
currentTime otherwise. -/
theorem onProgress_gates_currentTime (s : AppState) (d : ProgressData) :
    (onProgress s d).currentTime =
      if s.isLoading = false ∧ s.playerState ≠ PlayerState.ENDED then d.currentTime
      else s.currentTime := by
  by_cases h1 : s.isLoading <;> by_cases h2 : s.playerState = PlayerState.ENDED <;>
    simp [onProgress, h1, h2, bne_iff_ne]

/-- Claim C8: every onError callback surfaces exactly one playback-error
alert, clears the widget loading flag, and leaves the stored descriptor,
the stored error text and playerState unchanged. -/
theorem onError_alert_clears_widget_flag (s : AppState) (err : String) :
    (onError s err).2 =
      [Alert.mk "Playback Error"
        "Failed to play video stream. Check if headers are working."] ∧
    (onError s err).1.isLoading = false ∧
    (onError s err).1.streamData = s.streamData ∧
    (onError s err).1.error = s.error ∧
    (onError s err).1.playerState = s.playerState :=
  ⟨rfl, rfl, rfl, rfl, rfl⟩

/-- Claim C9: a non-empty whitespace-only title does not take the validation
branch: the outbound call is issued with that title URL-encoded; and the
validation envelope with no outbound call occurs exactly when the title is
absent or the empty string. -/
theorem proxy_whitespace_title_not_validated (a : Type) (t : String)
    (o : UpstreamOutcome a) (q : Option String) (o2 : UpstreamOutcome a)
    (hne : t ≠ "") (hws : ∀ c ∈ t.data, c.isWhitespace) :
    (proxyGetStream a (some t) o).outboundUrl =
      some (upstreamBase ++ "/api/get-stream?title=" ++ encodeURIComponent t) ∧
    (((proxyGetStream a q o2).response =
        GatewayResponse.failure "Title parameter required" ∧
      (proxyGetStream a q o2).outboundUrl = none) ↔
      (q = none ∨ q = some "")) := by
  constructor
  · cases o <;> simp [proxyGetStream, hne]
  · constructor
    · intro hq
      match q with
      | none => exact Or.inl rfl
      | some u =>
        by_cases hu : u = ""
        · exact Or.inr (by rw [hu])
        · exact absurd hq.2 (by cases o2 <;> simp [proxyGetStream, hu])
    · intro hq
      rcases hq with h | h <;> subst h <;> simp [proxyGetStream]

/-- Claim C9 witness: a single-space title goes upstream, while a missing
title takes the validation branch. -/
theorem proxy_whitespace_title_not_validated_witness :
    (" " : String) ≠ "" ∧ (∀ c ∈ (" " : String).data, c.isWhitespace) ∧
    ((proxyGetStream Nat (some " ") (UpstreamOutcome.json 0)).outboundUrl =
       some (upstreamBase ++ "/api/get-stream?title=" ++ encodeURIComponent " ") ∧
     (((proxyGetStream Nat none (UpstreamOutcome.json 0)).response =
         GatewayResponse.failure "Title parameter required" ∧
       (proxyGetStream Nat none (UpstreamOutcome.json 0)).outboundUrl = none) ↔
       ((none : Option String) = none ∨ (none : Option String) = some ""))) :=
  ⟨by decide, by decide,
   proxy_whitespace_title_not_validated Nat " " (UpstreamOutcome.json 0) none
     (UpstreamOutcome.json 0) (by decide) (by decide)⟩

/-- Claim C10: clearAll leaves duration, isFullscreen, the widget loading
flag isLoading, and also the fetch loading flag, unchanged: only title,
streamData, error, playerState and currentTime are reset. -/
theorem clearAll_leaves_widget_fields (s : AppState) :
    (clearAll s).duration = s.duration ∧
    (clearAll s).isFullscreen = s.isFullscreen ∧
    (clearAll s).isLoading = s.isLoading ∧
    (clearAll s).loading = s.loading :=
  ⟨rfl, rfl, rfl, rfl⟩
